import Mathlib

/-!
Verification development for the helpingai Telegram relay bot (src/bot.py).

The embedding models the streaming-response path of AIBot.get_ai_response,
the delta extractor extract_content, the startup token gate in main, and the
line pipeline of webscout.AIutel.sanitize_stream as the bot invokes it
(intro_value "data:", to_json true, skip markers "[DONE]" and the empty
string, yield_raw_on_error false).  Python JSON decoding (json.loads) is
modelled by an executable recursive-descent parser over code points.
-/

/-- Python values produced by json.loads: JSON null is the Python value
None, numbers keep their sign, integer part, fraction digits and exponent,
objects are key-value lists in document order. -/
inductive Json : Type where
  | null : Json
  | bool (b : Bool) : Json
  | num (neg : Bool) (ip : Nat) (fr : List Char) (ex : Int) : Json
  | str (s : String) : Json
  | arr (elems : List Json) : Json
  | obj (members : List (String × Json)) : Json

def quoteChar : Char := Char.ofNat 34

def backslashChar : Char := Char.ofNat 92

def lbraceChar : Char := Char.ofNat 123

def rbraceChar : Char := Char.ofNat 125

/-- JSON structural whitespace: space, tab, newline, carriage return. -/
def jsonWsChar (c : Char) : Bool :=
  c = Char.ofNat 32 || c = Char.ofNat 9 || c = Char.ofNat 10 || c = Char.ofNat 13

def skipWs : List Char → List Char
  | [] => []
  | c :: cs => if jsonWsChar c then skipWs cs else c :: cs

def isDigitChar (c : Char) : Bool :=
  decide (48 ≤ c.toNat ∧ c.toNat ≤ 57)

def hexVal (c : Char) : Option Nat :=
  if 48 ≤ c.toNat ∧ c.toNat ≤ 57 then some (c.toNat - 48)
  else if 97 ≤ c.toNat ∧ c.toNat ≤ 102 then some (c.toNat - 87)
  else if 65 ≤ c.toNat ∧ c.toNat ≤ 70 then some (c.toNat - 55)
  else none

def parseHex4 : List Char → Option (Nat × List Char)
  | a :: b :: c :: d :: rest =>
    match hexVal a, hexVal b, hexVal c, hexVal d with
    | some x, some y, some z, some w => some (((x * 16 + y) * 16 + z) * 16 + w, rest)
    | _, _, _, _ => none
  | _ => none

/-- Single-character JSON string escapes. -/
def escChar (c : Char) : Option Char :=
  if c = quoteChar then some quoteChar
  else if c = backslashChar then some backslashChar
  else if c = Char.ofNat 47 then some (Char.ofNat 47)
  else if c = 'b' then some (Char.ofNat 8)
  else if c = 'f' then some (Char.ofNat 12)
  else if c = 'n' then some (Char.ofNat 10)
  else if c = 'r' then some (Char.ofNat 13)
  else if c = 't' then some (Char.ofNat 9)
  else none

/-- Body of a JSON string after the opening quote, strict mode: raw control
characters are rejected, escape sequences are decoded, and a high and low
surrogate escape pair is combined into one code point. -/
def parseStringBody : Nat → List Char → List Char → Option (String × List Char)
  | 0, _, _ => none
  | _ + 1, [], _ => none
  | fuel + 1, c :: cs, acc =>
    if c = quoteChar then some (String.mk acc.reverse, cs)
    else if c = backslashChar then
      match cs with
      | [] => none
      | e :: cs2 =>
        if e = 'u' then
          match parseHex4 cs2 with
          | none => none
          | some (x, cs3) =>
            if 55296 ≤ x ∧ x ≤ 56319 then
              match cs3 with
              | b1 :: u1 :: cs4 =>
                if b1 = backslashChar ∧ u1 = 'u' then
                  match parseHex4 cs4 with
                  | some (y, cs5) =>
                    if 56320 ≤ y ∧ y ≤ 57343 then
                      parseStringBody fuel cs5
                        (Char.ofNat (65536 + (x - 55296) * 1024 + (y - 56320)) :: acc)
                    else parseStringBody fuel cs3 (Char.ofNat x :: acc)
                  | none => parseStringBody fuel cs3 (Char.ofNat x :: acc)
                else parseStringBody fuel cs3 (Char.ofNat x :: acc)
              | _ => parseStringBody fuel cs3 (Char.ofNat x :: acc)
            else parseStringBody fuel cs3 (Char.ofNat x :: acc)
        else
          match escChar e with
          | some r => parseStringBody fuel cs2 (r :: acc)
          | none => none
    else if c.toNat < 32 then none
    else parseStringBody fuel cs (c :: acc)

def takeDigits : List Char → List Char × List Char
  | [] => ([], [])
  | c :: cs =>
    if isDigitChar c then
      let p := takeDigits cs
      (c :: p.1, p.2)
    else ([], c :: cs)

def digitsToNat (ds : List Char) : Nat :=
  ds.foldl (fun acc c => acc * 10 + (c.toNat - 48)) 0

/-- Integer part of a JSON number, with the leading-zero restriction. -/
def parseIntPart (cs : List Char) : Option (Nat × List Char) :=
  match takeDigits cs with
  | ([], _) => none
  | (d :: ds, rest) =>
    if d = Char.ofNat 48 ∧ ds ≠ [] then none
    else some (digitsToNat (d :: ds), rest)

def parseFracPart : List Char → Option (List Char × List Char)
  | [] => some ([], [])
  | c :: cs =>
    if c = '.' then
      match takeDigits cs with
      | ([], _) => none
      | (ds, rest) => some (ds, rest)
    else some ([], c :: cs)

def parseExpPart : List Char → Option (Int × List Char)
  | [] => some (0, [])
  | c :: cs =>
    if c = 'e' ∨ c = 'E' then
      match cs with
      | d :: cs2 =>
        if d = '+' then
          match takeDigits cs2 with
          | ([], _) => none
          | (ds, rest) => some (Int.ofNat (digitsToNat ds), rest)
        else if d = '-' then
          match takeDigits cs2 with
          | ([], _) => none
          | (ds, rest) => some (-Int.ofNat (digitsToNat ds), rest)
        else
          match takeDigits cs with
          | ([], _) => none
          | (ds, rest) => some (Int.ofNat (digitsToNat ds), rest)
      | [] => none
    else some (0, c :: cs)

def parseNumber (cs : List Char) : Option (Json × List Char) :=
  let p : Bool × List Char :=
    match cs with
    | c :: rest => if c = '-' then (true, rest) else (false, cs)
    | [] => (false, [])
  match parseIntPart p.2 with
  | none => none
  | some (ip, cs2) =>
    match parseFracPart cs2 with
    | none => none
    | some (fr, cs3) =>
      match parseExpPart cs3 with
      | none => none
      | some (ex, cs4) => some (Json.num p.1 ip fr ex, cs4)

mutual

/-- One JSON value, fuel-bounded recursive descent. -/
def parseValue : Nat → List Char → Option (Json × List Char)
  | 0, _ => none
  | fuel + 1, cs =>
    match skipWs cs with
    | [] => none
    | c :: rest =>
      if c = lbraceChar then
        match skipWs rest with
        | d :: rest2 =>
          if d = rbraceChar then some (Json.obj [], rest2)
          else parseMembers fuel rest []
        | [] => none
      else if c = '[' then
        match skipWs rest with
        | d :: rest2 =>
          if d = ']' then some (Json.arr [], rest2)
          else parseElems fuel rest []
        | [] => none
      else if c = quoteChar then
        match parseStringBody (rest.length + 1) rest [] with
        | some (s, rest2) => some (Json.str s, rest2)
        | none => none
      else if c = 't' then
        match rest with
        | r1 :: r2 :: r3 :: rest2 =>
          if r1 = 'r' ∧ r2 = 'u' ∧ r3 = 'e' then some (Json.bool true, rest2) else none
        | _ => none
      else if c = 'f' then
        match rest with
        | r1 :: r2 :: r3 :: r4 :: rest2 =>
          if r1 = 'a' ∧ r2 = 'l' ∧ r3 = 's' ∧ r4 = 'e' then some (Json.bool false, rest2)
          else none
        | _ => none
      else if c = 'n' then
        match rest with
        | r1 :: r2 :: r3 :: rest2 =>
          if r1 = 'u' ∧ r2 = 'l' ∧ r3 = 'l' then some (Json.null, rest2) else none
        | _ => none
      else if c = '-' ∨ isDigitChar c then parseNumber (c :: rest)
      else none

/-- Comma-separated JSON array elements up to the closing bracket. -/
def parseElems : Nat → List Char → List Json → Option (Json × List Char)
  | 0, _, _ => none
  | fuel + 1, cs, acc =>
    match parseValue fuel cs with
    | none => none
    | some (v, cs2) =>
      match skipWs cs2 with
      | c :: cs3 =>
        if c = ',' then parseElems fuel cs3 (v :: acc)
        else if c = ']' then some (Json.arr (v :: acc).reverse, cs3)
        else none
      | [] => none

/-- Comma-separated JSON object members up to the closing brace. -/
def parseMembers : Nat → List Char → List (String × Json) → Option (Json × List Char)
  | 0, _, _ => none
  | fuel + 1, cs, acc =>
    match skipWs cs with
    | c :: cs1 =>
      if c = quoteChar then
        match parseStringBody (cs1.length + 1) cs1 [] with
        | none => none
        | some (k, cs2) =>
          match skipWs cs2 with
          | d :: cs3 =>
            if d = ':' then
              match parseValue fuel cs3 with
              | none => none
              | some (v, cs4) =>
                match skipWs cs4 with
                | e :: cs5 =>
                  if e = ',' then parseMembers fuel cs5 ((k, v) :: acc)
                  else if e = rbraceChar then some (Json.obj ((k, v) :: acc).reverse, cs5)
                  else none
                | [] => none
            else none
          | [] => none
      else none
    | [] => none

end

/-- Model of json.loads on a list of code points: one JSON value, then only
whitespace may remain.  The fuel bound dominates any nesting the input can
express. -/
def parseJsonChars (cs : List Char) : Option Json :=
  match parseValue (2 * cs.length + 2) cs with
  | some (j, rest) => if skipWs rest = [] then some j else none
  | none => none

def parseJson (s : String) : Option Json :=
  parseJsonChars s.toList

/-- Python dict lookup for a decoded JSON object; on duplicate keys
json.loads keeps the last occurrence, so the rightmost binding wins. -/
def lookupMember : List (String × Json) → String → Option Json
  | [], _ => none
  | (k, v) :: rest, key =>
    match lookupMember rest key with
    | some r => some r
    | none => if k = key then some v else none

/-- Embedding of extract_content (src/bot.py lines 56-60): the value of
chunk.choices[0].delta.content when that path exists, Json.null (Python
None) when any step raises inside the try or the content key is absent. -/
def extract_content (chunk : Json) : Json :=
  match chunk with
  | Json.obj members =>
    match lookupMember members "choices" with
    | some (Json.arr (c0 :: _)) =>
      match c0 with
      | Json.obj cms =>
        match lookupMember cms "delta" with
        | some (Json.obj dms) =>
          match lookupMember dms "content" with
          | some v => v
          | none => Json.null
        | _ => Json.null
      | _ => Json.null
    | _ => Json.null
  | _ => Json.null

def dataIntro : List Char := String.toList "data:"

def doneMarker : List Char := String.toList "[DONE]"

/-- Strip the intro marker "data:" from the front of a raw line when
present. -/
def stripLine (line : String) : List Char :=
  if dataIntro.isPrefixOf line.toList then line.toList.drop 5 else line.toList

/-- Modelled from the spec: the per-line pipeline of
webscout.AIutel.sanitize_stream, whose source is not in this repository,
following section 4.1 with the arguments fixed at the call site in
src/bot.py lines 62-69: strip the intro marker "data:" when present, skip
the line when it equals a skip marker ("[DONE]" or the empty string),
otherwise decode it as JSON (skipping the line on decode failure, since
yield_raw_on_error is false), apply extract_content, and yield the result
exactly when it is not None. -/
def processLine (line : String) : Option Json :=
  if stripLine line = doneMarker ∨ stripLine line = [] then none
  else
    match parseJsonChars (stripLine line) with
    | none => none
    | some j =>
      match extract_content j with
      | Json.null => none
      | v => some v

/-- Modelled from the spec: the whole sanitize_stream generator as invoked
by src/bot.py, as the list of contents it yields. -/
def sanitize_stream (lines : List String) : List Json :=
  lines.filterMap processLine

/-- Outcome of the accumulation loop: the accumulated string, or the
TypeError Python raises when a truthy non-string content reaches
full_response += content. -/
inductive LoopResult : Type where
  | ok (full : String) : LoopResult
  | typeError : LoopResult
deriving DecidableEq

/-- Python truthiness of a decoded JSON value, as tested by
`if content:` in src/bot.py line 70. -/
def pyTruthy : Json → Bool
  | Json.null => false
  | Json.bool b => b
  | Json.num _ ip fr _ => if ip = 0 ∧ fr.all (· == '0') then false else true
  | Json.str s => if s = "" then false else true
  | Json.arr xs => if xs.isEmpty then false else true
  | Json.obj ms => if ms.isEmpty then false else true

/-- Embedding of the loop body of src/bot.py lines 70-71 over the contents
sanitize_stream yields: truthy strings are appended, falsy contents are
skipped, a truthy non-string makes += raise TypeError. -/
def accumulateContents : List Json → String → LoopResult
  | [], acc => LoopResult.ok acc
  | v :: rest, acc =>
    if pyTruthy v then
      match v with
      | Json.str s => accumulateContents rest (acc ++ s)
      | _ => LoopResult.typeError
    else accumulateContents rest acc

/-- The Stream Reducer of src/bot.py lines 54-71: run the accumulation loop
over the contents extracted from the raw lines, starting from the empty
string. -/
def runStreamLoop (lines : List String) : LoopResult :=
  accumulateContents (sanitize_stream lines) ""

/-- Code points Python str.strip removes (str.isspace characters). -/
def pySpaceCodes : List Nat :=
  [9, 10, 11, 12, 13, 28, 29, 30, 31, 32, 133, 160, 5760,
   8192, 8193, 8194, 8195, 8196, 8197, 8198, 8199, 8200, 8201, 8202,
   8232, 8233, 8239, 8287, 12288]

def isPySpace (c : Char) : Bool := pySpaceCodes.contains c.toNat

/-- Model of Python str.strip(): drop whitespace from both ends. -/
def pyStrip (s : String) : String :=
  String.mk (((s.toList.dropWhile isPySpace).reverse.dropWhile isPySpace).reverse)

def connection_error_msg : String :=
  "Sorry, I\x27m having trouble connecting to the AI service."

def unexpected_error_msg : String :=
  "Sorry, something went wrong while processing your request."

def empty_response_msg : String :=
  "I couldn\x27t generate a response."

/-- Observable behavior of the outbound HTTP call: either requests.post
raises a RequestException, or a response arrives with a status code, the
stream lines delivered before the stream ends, and a flag telling whether
iterating the stream then raises a RequestException (connection dropped
mid-stream) instead of ending normally. -/
inductive ApiBehavior : Type where
  | requestException : ApiBehavior
  | response (status : Nat) (lines : List String) (droppedMidStream : Bool) : ApiBehavior

/-- Embedding of AIBot.get_ai_response (src/bot.py lines 40-80): non-200
short-circuits with the connection error message; the loop runs over the
delivered lines; a TypeError in the loop is caught by the generic handler;
a mid-stream drop raises RequestException after the delivered lines, landing
in the connection error handler; a normal end returns the stripped
accumulation, or the placeholder when nothing was accumulated. -/
def get_ai_response (api : ApiBehavior) : String :=
  match api with
  | ApiBehavior.requestException => connection_error_msg
  | ApiBehavior.response status lines dropped =>
    if status ≠ 200 then connection_error_msg
    else
      match runStreamLoop lines with
      | LoopResult.typeError => unexpected_error_msg
      | LoopResult.ok full =>
        if dropped then connection_error_msg
        else if full = "" then empty_response_msg
        else pyStrip full

/-- Outcome of main (src/bot.py lines 124-145) as far as startup is
concerned. -/
inductive StartupOutcome : Type where
  | fatalMissingToken : StartupOutcome
  | running (token : String) : StartupOutcome
deriving DecidableEq

/-- Embedding of the token gate in main (src/bot.py lines 126-128):
`if not TELEGRAM_TOKEN` returns early both when the variable is unset
(None) and when it is set to the empty string; otherwise the application is
built and run with that token. -/
def main_startup (tokenEnv : Option String) : StartupOutcome :=
  match tokenEnv with
  | none => StartupOutcome.fatalMissingToken
  | some t =>
    if t = "" then StartupOutcome.fatalMissingToken
    else StartupOutcome.running t

/-- Raw line of the spec example carrying the delta "Hel". -/
def exampleHelLine : String :=
  "data: \x7b\x22choices\x22:[\x7b\x22delta\x22:\x7b\x22content\x22:\x22Hel\x22\x7d\x7d]\x7d"

/-- Raw line of the spec example carrying the delta "lo". -/
def exampleLoLine : String :=
  "data: \x7b\x22choices\x22:[\x7b\x22delta\x22:\x7b\x22content\x22:\x22lo\x22\x7d\x7d]\x7d"

/-- Termination line of the spec example. -/
def exampleDoneLine : String := "data: [DONE]"

/-- Well-formed chunk line whose content delta is the empty string. -/
def emptyContentLine : String :=
  "data: \x7b\x22choices\x22:[\x7b\x22delta\x22:\x7b\x22content\x22:\x22\x22\x7d\x7d]\x7d"

/-- Well-formed chunk line whose content delta is a single space. -/
def spaceContentLine : String :=
  "data: \x7b\x22choices\x22:[\x7b\x22delta\x22:\x7b\x22content\x22:\x22 \x22\x7d\x7d]\x7d"

/-- Line whose payload after the intro marker is not decodable JSON. -/
def badJsonLine : String := "data: oops"

/-- The raw line is a well-formed `data: ...` chunk line whose
choices[0].delta.content field holds the string delta d. -/
def ContentLine (line : String) (d : String) : Prop :=
  dataIntro.isPrefixOf line.toList = true ∧
  ∃ j : Json, parseJsonChars (line.toList.drop 5) = some j ∧
    extract_content j = Json.str d

/-- Concatenation of a list of strings in order. -/
def concatAll : List String → String
  | [] => ""
  | s :: rest => s ++ concatAll rest

/-- Decoded chunk of the spec example line carrying "Hel". -/
def exampleHelChunk : Json :=
  Json.obj [("choices", Json.arr [Json.obj [("delta",
    Json.obj [("content", Json.str "Hel")])]])]

/-- Decoded chunk of the spec example line carrying "lo". -/
def exampleLoChunk : Json :=
  Json.obj [("choices", Json.arr [Json.obj [("delta",
    Json.obj [("content", Json.str "lo")])]])]

/-- Decoded chunk whose content delta is the empty string. -/
def emptyContentChunk : Json :=
  Json.obj [("choices", Json.arr [Json.obj [("delta",
    Json.obj [("content", Json.str "")])]])]

/-- The decoded value is a JSON object (a Python dict). -/
def Json.isObj : Json → Bool
  | Json.obj _ => true
  | _ => false

/-- The decoded value is a JSON array (a Python list). -/
def Json.isArr : Json → Bool
  | Json.arr _ => true
  | _ => false

theorem parseJsonChars_doneMarker : parseJsonChars doneMarker = none := by rfl

theorem parseJsonChars_nil : parseJsonChars [] = none := by rfl

/-- A well-formed content line passes the whole sanitize_stream pipeline and
yields exactly its string delta. -/
theorem processLine_of_contentLine {line d : String} (h : ContentLine line d) :
    processLine line = some (Json.str d) := by
  obtain ⟨hpre, j, hparse, hext⟩ := h
  have hstrip : stripLine line = line.toList.drop 5 := by
    unfold stripLine
    rw [hpre]
    simp
  have hmark : ¬(stripLine line = doneMarker ∨ stripLine line = []) := by
    rintro (hd | hd) <;> rw [hstrip] at hd <;> rw [hd] at hparse
    · rw [parseJsonChars_doneMarker] at hparse
      exact Option.noConfusion hparse
    · rw [parseJsonChars_nil] at hparse
      exact Option.noConfusion hparse
  unfold processLine
  rw [if_neg hmark, hstrip, hparse]
  simp [hext]

theorem sanitize_stream_nil : sanitize_stream [] = [] := rfl

theorem sanitize_stream_cons (line : String) (rest : List String) :
    sanitize_stream (line :: rest) =
      match processLine line with
      | none => sanitize_stream rest
      | some v => v :: sanitize_stream rest := by
  unfold sanitize_stream
  rw [List.filterMap_cons]
  cases processLine line <;> rfl

/-- Removing a line the pipeline skips does not change the yielded contents. -/
theorem sanitize_stream_skip {b : String} (hb : processLine b = none)
    (pre post : List String) :
    sanitize_stream (pre ++ b :: post) = sanitize_stream (pre ++ post) := by
  unfold sanitize_stream
  rw [List.filterMap_append, List.filterMap_append, List.filterMap_cons, hb]

/-- On a run of well-formed content lines the pipeline yields exactly the
string deltas, in order. -/
theorem sanitize_stream_of_contentLines {lines ds : List String}
    (h : List.Forall₂ ContentLine lines ds) :
    sanitize_stream lines = ds.map Json.str := by
  induction h with
  | nil => rfl
  | cons h1 _ ih =>
    rw [sanitize_stream_cons, processLine_of_contentLine h1, ih]
    rfl

/-- The loop appends every string content, skipping only the falsy empty
string, which contributes nothing to the concatenation either. -/
theorem accumulateContents_map_str (ds : List String) :
    ∀ acc : String,
      accumulateContents (ds.map Json.str) acc = LoopResult.ok (acc ++ concatAll ds) := by
  induction ds with
  | nil => intro acc; simp [accumulateContents, concatAll]
  | cons d rest ih =>
    intro acc
    by_cases hd : d = ""
    · subst hd
      simp [accumulateContents, pyTruthy, concatAll, ih acc]
    · simp [accumulateContents, pyTruthy, hd, concatAll, ih (acc ++ d),
        String.append_assoc]

/-- get_ai_response depends on the received lines only through the contents
sanitize_stream yields. -/
theorem get_ai_response_congr {lines1 lines2 : List String}
    (h : sanitize_stream lines1 = sanitize_stream lines2)
    (status : Nat) (dropped : Bool) :
    get_ai_response (ApiBehavior.response status lines1 dropped)
      = get_ai_response (ApiBehavior.response status lines2 dropped) := by
  simp only [get_ai_response, runStreamLoop, h]

/-- Claim C1, counterexample: a single well-formed content line whose delta
is the empty string satisfies the premise of the claim, yet the function
returns the placeholder instead of the trimmed concatenation (the empty
string). -/
theorem claim1_counterexample :
    ContentLine emptyContentLine "" ∧
    get_ai_response (ApiBehavior.response 200 [emptyContentLine] false)
      ≠ pyStrip (concatAll [""]) := by
  constructor
  · exact ⟨by rfl, emptyContentChunk, by rfl, by rfl⟩
  · decide

/-- Claim C1 (amended): for a stream of well-formed content lines the
function returns the concatenation of the deltas in order, trimmed,
provided the concatenation is nonempty (an empty concatenation yields the
placeholder instead); in particular the spec example with the deltas "Hel"
and "lo" followed by the termination line yields "Hello". -/
theorem claim1_concat_of_deltas :
    (∀ (lines ds : List String), List.Forall₂ ContentLine lines ds →
        concatAll ds ≠ "" →
        get_ai_response (ApiBehavior.response 200 lines false)
          = pyStrip (concatAll ds)) ∧
    get_ai_response (ApiBehavior.response 200
        [exampleHelLine, exampleLoLine, exampleDoneLine] false) = "Hello" := by
  constructor
  · intro lines ds hf hne
    have hrun : runStreamLoop lines = LoopResult.ok (concatAll ds) := by
      unfold runStreamLoop
      rw [sanitize_stream_of_contentLines hf]
      simpa using accumulateContents_map_str ds ""
    simp [get_ai_response, hrun, hne]
  · rfl

/-- Claim C1, witness instance: two content lines with deltas "Hel" and
"lo". -/
theorem claim1_concat_of_deltas_witness :
    get_ai_response (ApiBehavior.response 200 [exampleHelLine, exampleLoLine] false)
      = pyStrip (concatAll ["Hel", "lo"]) :=
  claim1_concat_of_deltas.1 [exampleHelLine, exampleLoLine] ["Hel", "lo"]
    (List.Forall₂.cons ⟨by rfl, exampleHelChunk, by rfl, by rfl⟩
      (List.Forall₂.cons ⟨by rfl, exampleLoChunk, by rfl, by rfl⟩
        List.Forall₂.nil))
    (by decide)

/-- Claim C2, counterexample: the message returned on a request-level
exception and the message returned on a non-200 status are the same string,
not distinct ones. -/
theorem claim2_counterexample :
    get_ai_response ApiBehavior.requestException = connection_error_msg ∧
    get_ai_response (ApiBehavior.response 404 [] false) = connection_error_msg :=
  ⟨rfl, rfl⟩

/-- Claim C2 (amended): every request-level exception maps to the fixed
connection error message, which coincides with the non-200 message; only
the generic unexpected-error message differs from it. -/
theorem claim2_error_messages :
    get_ai_response ApiBehavior.requestException = connection_error_msg ∧
    (∀ (status : Nat) (lines : List String) (dropped : Bool), status ≠ 200 →
        get_ai_response (ApiBehavior.response status lines dropped)
          = connection_error_msg) ∧
    connection_error_msg ≠ unexpected_error_msg := by
  refine ⟨rfl, ?_, by decide⟩
  intro status lines dropped h
  simp [get_ai_response, h]

/-- Claim C2, witness instance at status 500. -/
theorem claim2_error_messages_witness :
    get_ai_response (ApiBehavior.response 500 [] false) = connection_error_msg :=
  claim2_error_messages.2.1 500 [] false (by decide)

/-- Claim C3, counterexample: with "Hel" already accumulated and the
connection dropping mid-stream, the function returns the fixed connection
error message, not the accumulated text. -/
theorem claim3_counterexample :
    runStreamLoop [exampleHelLine] = LoopResult.ok "Hel" ∧
    get_ai_response (ApiBehavior.response 200 [exampleHelLine] true)
      = connection_error_msg ∧
    get_ai_response (ApiBehavior.response 200 [exampleHelLine] true) ≠ "Hel" := by
  refine ⟨rfl, rfl, ?_⟩
  decide

/-- Claim C3 (amended): when iterating the stream raises a transport error
after some lines were delivered, the function catches it and returns the
fixed connection error message, discarding whatever was accumulated. -/
theorem claim3_midstream_drop :
    ∀ (lines : List String) (full : String),
      runStreamLoop lines = LoopResult.ok full →
      get_ai_response (ApiBehavior.response 200 lines true)
        = connection_error_msg := by
  intro lines full h
  simp [get_ai_response, h]

/-- Claim C3, witness instance after accumulating "Hel". -/
theorem claim3_midstream_drop_witness :
    get_ai_response (ApiBehavior.response 200 [exampleHelLine] true)
      = connection_error_msg :=
  claim3_midstream_drop [exampleHelLine] "Hel" rfl

/-- Claim C4, counterexample: a single space delta accumulates to " ",
whose trimmed value is empty, yet the function returns the empty string
rather than the placeholder, because the placeholder test looks at the
untrimmed accumulator. -/
theorem claim4_counterexample :
    runStreamLoop [spaceContentLine] = LoopResult.ok " " ∧
    pyStrip " " = "" ∧
    get_ai_response (ApiBehavior.response 200 [spaceContentLine] false) = "" ∧
    ("" : String) ≠ empty_response_msg := by
  refine ⟨rfl, rfl, rfl, ?_⟩
  decide

/-- Claim C4 (amended): on a normally ending stream the function returns
the placeholder exactly when the untrimmed accumulator is empty, and the
trimmed accumulator otherwise; when no line yields a content fragment the
accumulator is empty and the placeholder results. -/
theorem claim4_trim_placeholder :
    ∀ (lines : List String) (full : String),
      runStreamLoop lines = LoopResult.ok full →
      get_ai_response (ApiBehavior.response 200 lines false)
        = (if full = "" then empty_response_msg else pyStrip full) := by
  intro lines full h
  simp [get_ai_response, h]

/-- Claim C4, witness instance: no lines at all, so the placeholder. -/
theorem claim4_trim_placeholder_witness :
    get_ai_response (ApiBehavior.response 200 [] false)
      = (if ("" : String) = "" then empty_response_msg else pyStrip "") :=
  claim4_trim_placeholder [] "" rfl

/-- Claim C5: every response whose status is not 200 yields exactly the
fixed connection error message, independently of the body lines, which are
never parsed. -/
theorem claim5_non200_message :
    ∀ (status : Nat) (lines : List String) (dropped : Bool),
      status ≠ 200 →
      get_ai_response (ApiBehavior.response status lines dropped)
        = connection_error_msg := by
  intro status lines dropped h
  simp [get_ai_response, h]

/-- Claim C5, witness instance at status 404 with a content line in the
body. -/
theorem claim5_non200_message_witness :
    get_ai_response (ApiBehavior.response 404 [exampleHelLine] false)
      = connection_error_msg :=
  claim5_non200_message 404 [exampleHelLine] false (by decide)

/-- Claim C6: a line whose payload after stripping the intro marker does
not decode as JSON is skipped, and the output on the whole sequence equals
the output on the sequence with that line removed, wherever it sits. -/
theorem claim6_unparseable_skipped :
    ∀ (bad : String), parseJsonChars (stripLine bad) = none →
      ∀ (pre post : List String),
        get_ai_response (ApiBehavior.response 200 (pre ++ bad :: post) false)
          = get_ai_response (ApiBehavior.response 200 (pre ++ post) false) := by
  intro bad hbad pre post
  have hb : processLine bad = none := by
    unfold processLine
    by_cases hmark : stripLine bad = doneMarker ∨ stripLine bad = []
    · rw [if_pos hmark]
    · rw [if_neg hmark, hbad]
  exact get_ai_response_congr (sanitize_stream_skip hb pre post) 200 false

/-- Claim C6, witness instance: inserting "data: oops" between the two
content lines of the example changes nothing. -/
theorem claim6_unparseable_skipped_witness :
    get_ai_response (ApiBehavior.response 200
        [exampleHelLine, badJsonLine, exampleLoLine] false)
      = get_ai_response (ApiBehavior.response 200
        [exampleHelLine, exampleLoLine] false) :=
  claim6_unparseable_skipped badJsonLine (by rfl) [exampleHelLine] [exampleLoLine]

/-- Claim C7: a line equal to the termination sentinel "[DONE]" or to the
empty string contributes nothing, at any position: the output on the
sequence equals the output with that line removed. -/
theorem claim7_sentinel_skipped :
    ∀ (pre post : List String),
      (get_ai_response (ApiBehavior.response 200 (pre ++ "[DONE]" :: post) false)
        = get_ai_response (ApiBehavior.response 200 (pre ++ post) false)) ∧
      (get_ai_response (ApiBehavior.response 200 (pre ++ "" :: post) false)
        = get_ai_response (ApiBehavior.response 200 (pre ++ post) false)) := by
  intro pre post
  constructor
  · exact get_ai_response_congr (sanitize_stream_skip (by rfl) pre post) 200 false
  · exact get_ai_response_congr (sanitize_stream_skip (by rfl) pre post) 200 false

/-- Claim C8, counterexample: a token that is present in the environment
but equal to the empty string is also treated as fatal, so presence alone
does not make startup proceed. -/
theorem claim8_counterexample :
    main_startup (some "") = StartupOutcome.fatalMissingToken ∧
    main_startup (some "") ≠ StartupOutcome.running "" := by
  refine ⟨rfl, ?_⟩
  decide

/-- Claim C8 (amended): main logs and returns without building the
application when the token variable is unset or set to the empty string,
and proceeds to run with the token exactly when it is present and
nonempty. -/
theorem claim8_token_gate :
    main_startup none = StartupOutcome.fatalMissingToken ∧
    main_startup (some "") = StartupOutcome.fatalMissingToken ∧
    (∀ (t : String), t ≠ "" → main_startup (some t) = StartupOutcome.running t) := by
  refine ⟨rfl, rfl, ?_⟩
  intro t ht
  simp [main_startup, ht]

/-- Claim C8, witness instance with a nonempty token. -/
theorem claim8_token_gate_witness :
    main_startup (some "123456:ABC") = StartupOutcome.running "123456:ABC" :=
  claim8_token_gate.2.2 "123456:ABC" (by decide)

/-- Claim C9: whatever the upstream service does, get_ai_response returns a
string, and it is always the connection error message, the generic
unexpected-error message, the placeholder, or the trimmed accumulation of a
normally completed 200 stream. -/
theorem claim9_never_raises :
    ∀ (api : ApiBehavior),
      get_ai_response api = connection_error_msg ∨
      get_ai_response api = unexpected_error_msg ∨
      get_ai_response api = empty_response_msg ∨
      ∃ (lines : List String) (dropped : Bool) (full : String),
        api = ApiBehavior.response 200 lines dropped ∧
        runStreamLoop lines = LoopResult.ok full ∧
        get_ai_response api = pyStrip full := by
  intro api
  cases api with
  | requestException => exact Or.inl rfl
  | response status lines dropped =>
    by_cases hs : status = 200
    · subst hs
      cases hrun : runStreamLoop lines with
      | typeError =>
        right; left
        simp [get_ai_response, hrun]
      | ok full =>
        cases dropped with
        | true =>
          left
          simp [get_ai_response, hrun]
        | false =>
          by_cases hf : full = ""
          · right; right; left
            simp [get_ai_response, hrun, hf]
          · right; right; right
            exact ⟨lines, false, full, rfl, hrun, by simp [get_ai_response, hrun, hf]⟩
    · left
      simp [get_ai_response, hs]

/-- Claim C10: extract_content returns None (Json.null) on every chunk
shape that breaks the choices[0].delta.content path, and a yielded empty
string content is falsy and contributes nothing to the accumulator. -/
theorem claim10_extract_total :
    (∀ (j : Json), j.isObj = false → extract_content j = Json.null) ∧
    (∀ (ms : List (String × Json)), lookupMember ms "choices" = none →
        extract_content (Json.obj ms) = Json.null) ∧
    (∀ (ms : List (String × Json)) (v : Json), lookupMember ms "choices" = some v →
        v.isArr = false → extract_content (Json.obj ms) = Json.null) ∧
    (∀ (ms : List (String × Json)), lookupMember ms "choices" = some (Json.arr []) →
        extract_content (Json.obj ms) = Json.null) ∧
    (∀ (ms : List (String × Json)) (c : Json) (cs : List Json),
        lookupMember ms "choices" = some (Json.arr (c :: cs)) → c.isObj = false →
        extract_content (Json.obj ms) = Json.null) ∧
    (∀ (ms cms : List (String × Json)) (cs : List Json),
        lookupMember ms "choices" = some (Json.arr (Json.obj cms :: cs)) →
        lookupMember cms "delta" = none →
        extract_content (Json.obj ms) = Json.null) ∧
    (∀ (ms cms : List (String × Json)) (cs : List Json) (dv : Json),
        lookupMember ms "choices" = some (Json.arr (Json.obj cms :: cs)) →
        lookupMember cms "delta" = some dv → dv.isObj = false →
        extract_content (Json.obj ms) = Json.null) ∧
    (∀ (ms cms dms : List (String × Json)) (cs : List Json),
        lookupMember ms "choices" = some (Json.arr (Json.obj cms :: cs)) →
        lookupMember cms "delta" = some (Json.obj dms) →
        lookupMember dms "content" = none →
        extract_content (Json.obj ms) = Json.null) ∧
    (∀ (line : String) (rest : List String) (acc : String),
        processLine line = some (Json.str "") →
        accumulateContents (sanitize_stream (line :: rest)) acc
          = accumulateContents (sanitize_stream rest) acc) := by
  refine ⟨?_, ?_, ?_, ?_, ?_, ?_, ?_, ?_, ?_⟩
  · intro j hj
    cases j with
    | obj ms => simp [Json.isObj] at hj
    | null => rfl
    | bool b => rfl
    | num a b c d => rfl
    | str s => rfl
    | arr xs => rfl
  · intro ms h
    simp [extract_content, h]
  · intro ms v h hv
    cases v with
    | arr xs => simp [Json.isArr] at hv
    | null => simp [extract_content, h]
    | bool b => simp [extract_content, h]
    | num a b c d => simp [extract_content, h]
    | str s => simp [extract_content, h]
    | obj m2 => simp [extract_content, h]
  · intro ms h
    simp [extract_content, h]
  · intro ms c cs h hc
    cases c with
    | obj m2 => simp [Json.isObj] at hc
    | null => simp [extract_content, h]
    | bool b => simp [extract_content, h]
    | num a b c2 d => simp [extract_content, h]
    | str s => simp [extract_content, h]
    | arr xs => simp [extract_content, h]
  · intro ms cms cs h hd
    simp [extract_content, h, hd]
  · intro ms cms cs dv h hd hdv
    cases dv with
    | obj m2 => simp [Json.isObj] at hdv
    | null => simp [extract_content, h, hd]
    | bool b => simp [extract_content, h, hd]
    | num a b c d => simp [extract_content, h, hd]
    | str s => simp [extract_content, h, hd]
    | arr xs => simp [extract_content, h, hd]
  · intro ms cms dms cs h hd hc
    simp [extract_content, h, hd, hc]
  · intro line rest acc h
    rw [sanitize_stream_cons, h]
    simp [accumulateContents, pyTruthy]

/-- Claim C10, witness instances: one concrete chunk for each broken shape
and the empty-string content line contributing nothing. -/
theorem claim10_extract_total_witness :
    extract_content (Json.str "x") = Json.null ∧
    extract_content (Json.obj []) = Json.null ∧
    extract_content (Json.obj [("choices", Json.str "y")]) = Json.null ∧
    extract_content (Json.obj [("choices", Json.arr [])]) = Json.null ∧
    extract_content (Json.obj [("choices", Json.arr [Json.num false 1 [] 0])])
      = Json.null ∧
    extract_content (Json.obj [("choices", Json.arr [Json.obj []])]) = Json.null ∧
    extract_content (Json.obj [("choices",
      Json.arr [Json.obj [("delta", Json.arr [])]])]) = Json.null ∧
    extract_content (Json.obj [("choices",
      Json.arr [Json.obj [("delta", Json.obj [])]])]) = Json.null ∧
    accumulateContents (sanitize_stream [emptyContentLine]) "seed"
      = accumulateContents (sanitize_stream []) "seed" :=
  ⟨claim10_extract_total.1 _ rfl,
   claim10_extract_total.2.1 _ rfl,
   claim10_extract_total.2.2.1 _ _ rfl rfl,
   claim10_extract_total.2.2.2.1 _ rfl,
   claim10_extract_total.2.2.2.2.1 _ _ _ rfl rfl,
   claim10_extract_total.2.2.2.2.2.1 _ _ _ rfl rfl,
   claim10_extract_total.2.2.2.2.2.2.1 _ _ _ _ rfl rfl rfl,
   claim10_extract_total.2.2.2.2.2.2.2.1 _ _ _ _ rfl rfl rfl,
   claim10_extract_total.2.2.2.2.2.2.2.2 emptyContentLine [] "seed" (by rfl)⟩
